import Mathlib

/-!
# ChatSphere webhook pipeline: shallow embedding and verification

This file embeds the Meta (WhatsApp Cloud API) webhook ingestion pipeline of
the ChatSphere repository in Lean 4 and proves the specified properties about
it.  The embedded code comes from:

* src/server/providers/meta.ts      (MetaProvider: signature check, payload
  normalization, outbound payload construction)
* src/unnamed/part_002              (route registration: the webhook GET and
  POST handlers, the send endpoint, and their storage interactions)

Conventions of the embedding:

* JavaScript strings are Lean String, numbers are Int, absent or null values
  are Option.  Environment variables are plain String where the empty string
  stands for an unset variable; this matches the truthiness tests the source
  applies to them.
* Functions from repository modules that are not part of the provided sources
  (the mime helpers of lib/mime, the media path helpers of
  services/media-storage, the signing helper of services/media-pipeline, the
  HMAC primitive of node crypto, and JSON.stringify) are passed in as fields
  of a JsEnv record.  No theorem below depends on their behaviour beyond what
  the handlers themselves do with their results.
* Storage is a pure Store value threaded through the handlers; the list of
  persisted conversations, messages and webhook-event audit records plays the
  role of the database.  Broadcasts over the WebSocket hub are recorded as a
  list of pairs of the event name and the id of the message the payload was
  built from (the payload signing that buildSignedMediaUrlsForMessage performs
  lives in a module outside the provided sources and is irrelevant to the
  properties proved here).
-/

namespace ChatSphere

/-! ## JavaScript primitives -/

/-- Truthiness of an optional string, as JavaScript applies it: an absent
value and the empty string are falsy. -/
def optTruthyStr (s : Option String) : Bool :=
  match s with
  | some v => v ≠ ""
  | none => false

/-- The JavaScript a-or-b idiom on strings: the first operand unless it is
falsy (empty). -/
def jsOrS (a b : String) : String :=
  if a ≠ "" then a else b

/-- First-occurrence replacement on character lists, mirroring the behaviour
of the JavaScript String replace method with a string pattern. -/
def listReplaceFirst : List Char → List Char → List Char → List Char
  | [], _, _ => []
  | c :: rest, pat, repl =>
    if pat.isPrefixOf (c :: rest) then repl ++ (c :: rest).drop pat.length
    else c :: listReplaceFirst rest pat repl

/-- First-occurrence replacement on strings (JavaScript replace with a string
pattern replaces only the first occurrence). -/
def replaceFirst (s pat repl : String) : String :=
  String.mk (listReplaceFirst s.data pat.data repl.data)

/-- Index of the last occurrence of a character in a list. -/
def lastIdxOf : List Char → Char → Option Nat
  | [], _ => none
  | x :: rest, c =>
    match lastIdxOf rest c with
    | some i => some (i + 1)
    | none => if x = c then some 0 else none

/-- Splitting at every occurrence of a separator character, as the JavaScript
string split does (written on character lists so that it evaluates inside the
kernel). -/
def splitOnCharAux : List Char → Char → List (List Char)
  | [], _ => [[]]
  | x :: rest, c =>
    let r := splitOnCharAux rest c
    if x = c then [] :: r
    else
      match r with
      | [] => [[x]]
      | h :: t => (x :: h) :: t

/-- String split at a separator character. -/
def splitOnChar (s : String) (c : Char) : List String :=
  (splitOnCharAux s.data c).map String.mk

/-- Lower-casing, character by character. -/
def strToLower (s : String) : String :=
  String.mk (s.data.map Char.toLower)

/-- Whitespace trimming at both ends. -/
def strTrim (s : String) : String :=
  String.mk (((s.data.dropWhile Char.isWhitespace).reverse.dropWhile Char.isWhitespace).reverse)

/-- Parsing a nonempty run of decimal digits. -/
def natOfDigits : List Char → Option Nat
  | [] => none
  | cs =>
    cs.foldl
      (fun acc c =>
        match acc with
        | none => none
        | some n => if c.isDigit then some (n * 10 + (c.toNat - 48)) else none)
      (some 0)

/-- Parsing an optionally negated run of decimal digits. -/
def intOfString (s : String) : Option Int :=
  match s.data with
  | '-' :: rest => (natOfDigits rest).map (fun n => -(n : Int))
  | l => (natOfDigits l).map (fun n => (n : Int))

/-- The final path segment, as the node basename helper computes it for the
ordinary slash-separated paths this code passes it (degenerate inputs such as
trailing slashes are outside the modelled scope). -/
def basenameFn (p : String) : String :=
  (splitOnChar p '/').getLastD ""

/-- The node extname helper: the suffix of the basename from its last dot;
empty when the basename has no dot or only a leading dot. -/
def extname (p : String) : String :=
  let base := basenameFn p
  match lastIdxOf base.data '.' with
  | none => ""
  | some i => if i = 0 then "" else String.mk (base.data.drop i)

/-- The JavaScript Number conversion restricted to the integer-literal strings
the provider sends as timestamps; none stands for NaN (the not-finite case).
An absent field converts to NaN; the empty string converts to zero. -/
def jsFiniteNumber (s : Option String) : Option Int :=
  match s with
  | none => none
  | some str =>
    let t := strTrim str
    if t = "" then some 0 else intOfString t

/-! ## Provider payload model (the duck-typed JSON the webhook receives) -/

/-- The object under the text key of a provider message. -/
structure TextObj where
  body : Option String := none
  deriving DecidableEq

/-- The duck-typed media object found under the image, document, video or
audio key of a provider message; exactly the fields buildMediaDescriptor
reads. -/
structure MediaObj where
  id : Option String := none
  media_id : Option String := none
  link : Option String := none
  mime_type : Option String := none
  mimetype : Option String := none
  filename : Option String := none
  caption : Option String := none
  sha256 : Option String := none
  file_size : Option Int := none
  filesize : Option Int := none
  width : Option Int := none
  height : Option Int := none
  duration : Option Int := none
  page_count : Option Int := none
  preview_url : Option String := none
  thumbnail_url : Option String := none
  deriving DecidableEq

/-- One provider message (an element of entry.changes.value.messages).  The
source fields named from and type are Lean keywords and appear here as
msgFrom and mtype. -/
structure MetaMessage where
  msgFrom : Option String := none
  id : Option String := none
  timestamp : Option String := none
  mtype : Option String := none
  text : Option TextObj := none
  image : Option MediaObj := none
  document : Option MediaObj := none
  video : Option MediaObj := none
  audio : Option MediaObj := none
  caption : Option String := none
  deriving DecidableEq

/-- The value object of a change. -/
structure MetaValue where
  messages : Option (List MetaMessage) := none
  deriving DecidableEq

/-- One change of an entry. -/
structure MetaChange where
  value : Option MetaValue := none
  deriving DecidableEq

/-- One entry of the webhook payload. -/
structure MetaEntry where
  changes : Option (List MetaChange) := none
  deriving DecidableEq

/-- The POST webhook payload body. -/
structure MetaPayload where
  entry : Option (List MetaEntry) := none
  deriving DecidableEq

/-! ## Canonical incoming events (providers/base shapes) -/

/-- The media descriptor stub attached to a canonical incoming event (the
IncomingMediaDescriptor interface of providers/base; the source field named
type appears as dtype). -/
structure IncomingMediaDescriptor where
  provider : String
  dtype : String
  mediaId : Option String
  url : Option String
  mimeType : Option String
  filename : Option String
  sha256 : Option String
  sizeBytes : Option Int
  width : Option Int
  height : Option Int
  durationSeconds : Option Int
  pageCount : Option Int
  previewUrl : Option String
  thumbnailUrl : Option String
  metadata : MediaObj
  deriving DecidableEq

/-- Which branch produced the ISO timestamp of an event: a finite
provider-supplied epoch-seconds value, or the current time fallback.  The
string rendering of the date is irrelevant to every property proved here, so
only the branch is recorded. -/
inductive TimestampVal where
  | fromEpochSeconds (n : Int)
  | currentTime
  deriving DecidableEq

/-- A canonical incoming event (the IncomingMessageEvent interface; the source
field named from appears as fromPhone). -/
structure IncomingMessageEvent where
  fromPhone : Option String
  raw : MetaMessage
  providerMessageId : Option String
  timestamp : TimestampVal
  body : Option String := none
  media : Option IncomingMediaDescriptor := none
  deriving DecidableEq

/-! ## MetaProvider.parseIncoming and buildMediaDescriptor -/

/-- MetaProvider.buildMediaDescriptor: the translation of one duck-typed media
object into a descriptor stub; absent payload gives no descriptor. -/
def buildMediaDescriptor (dtype : String) (payload : Option MediaObj) :
    Option IncomingMediaDescriptor :=
  match payload with
  | none => none
  | some p =>
    some {
      provider := "meta"
      dtype := dtype
      mediaId := p.id.orElse (fun _ => p.media_id)
      url := p.link
      mimeType := p.mime_type.orElse (fun _ => p.mimetype)
      filename := p.filename
      sha256 := p.sha256
      sizeBytes := p.file_size.orElse (fun _ => p.filesize)
      width := p.width
      height := p.height
      durationSeconds := p.duration
      pageCount := p.page_count
      previewUrl := p.preview_url
      thumbnailUrl := p.thumbnail_url
      metadata := p }

/-- The per-message body of the parseIncoming loops: builds the base event,
then specializes it by message type; a message of unknown type keeps the base
event with neither body nor media. -/
def parseMessage (msg : MetaMessage) : IncomingMessageEvent :=
  let ts :=
    match jsFiniteNumber msg.timestamp with
    | some n => TimestampVal.fromEpochSeconds n
    | none => TimestampVal.currentTime
  let event : IncomingMessageEvent :=
    { fromPhone := msg.msgFrom
      raw := msg
      providerMessageId := msg.id
      timestamp := ts }
  if msg.mtype = some "text" then
    { event with body := msg.text.bind (fun t => t.body) }
  else if msg.mtype = some "image" then
    { event with
        media := buildMediaDescriptor "image" msg.image
        body := (msg.image.bind (fun m => m.caption)).orElse (fun _ => msg.caption) }
  else if msg.mtype = some "document" then
    { event with
        media := buildMediaDescriptor "document" msg.document
        body := (msg.document.bind (fun m => m.caption)).orElse (fun _ => msg.caption) }
  else if msg.mtype = some "video" then
    { event with
        media := buildMediaDescriptor "video" msg.video
        body := (msg.video.bind (fun m => m.caption)).orElse (fun _ => msg.caption) }
  else if msg.mtype = some "audio" then
    { event with media := buildMediaDescriptor "audio" msg.audio }
  else
    event

/-- The inner loop over change.value.messages: a change whose value carries no
messages array contributes no events. -/
def parseChange (c : MetaChange) : List IncomingMessageEvent :=
  match c.value.bind (fun v => v.messages) with
  | some msgs => msgs.map parseMessage
  | none => []

/-- The loop over entry.changes: an entry without changes contributes no
events. -/
def parseEntry (e : MetaEntry) : List IncomingMessageEvent :=
  match e.changes with
  | none => []
  | some cs => (cs.map parseChange).flatten

/-- MetaProvider.parseIncoming: a payload without an entry field yields the
empty event list; otherwise the events of all entries in payload order. -/
def parseIncoming (payload : MetaPayload) : List IncomingMessageEvent :=
  match payload.entry with
  | none => []
  | some entries => (entries.map parseEntry).flatten

/-! ## External collaborators passed in as an environment

The HMAC primitive, JSON.stringify, the mime helpers of lib/mime and the media
path helpers of services/media-storage live outside the provided sources (node
crypto and repository modules not under src).  The handlers below receive them
as opaque function parameters bundled in a JsEnv. -/

/-- The ambient JavaScript collaborators of the handlers.  hmacSha256Hex maps
a secret and a message to the hex digest; stringify models JSON.stringify on
the payload body; nowIso is the current ISO timestamp; the remaining fields
model the mime and media-path helper modules that are not part of the
provided sources. -/
structure JsEnv where
  hmacSha256Hex : String → String → String
  stringify : MetaPayload → String
  nowIso : String
  getExtensionFromMime : Option String → Option String
  normalizeMimeType : Option String → Option String
  extractRelativeMediaPath : String → Option String
  buildSignedMediaPath : String → String
  toUrlPath : String → String
  getMimeTypeFromExtension : String → Option String
  getMimeType : String → Option String

/-! ## Provider configuration and createMetaProvider -/

/-- The persisted default WhatsApp instance configuration (the
WhatsappInstanceConfig fields the webhook path reads). -/
structure WhatsappInstanceConfig where
  accessToken : String
  phoneNumberId : String
  webhookVerifyToken : Option String
  appSecret : Option String
  isActive : Option Bool
  deriving DecidableEq

/-- The relevant environment variables; the empty string stands for an unset
variable, matching the truthiness tests applied to them. -/
structure EnvConfig where
  metaToken : String := ""
  metaPhoneNumberId : String := ""
  metaVerifyToken : String := ""
  metaAppSecret : String := ""
  metaGraphVersion : String := ""
  deriving DecidableEq

/-- The configuration state a webhook call runs against: the stored default
instance (if any) and the process environment. -/
structure AppConfig where
  defaultInstance : Option WhatsappInstanceConfig := none
  env : EnvConfig := {}
  deriving DecidableEq

/-- The resolved fields of a constructed MetaProvider. -/
structure MetaProviderState where
  token : String
  phoneNumberId : String
  verifyToken : String
  appSecret : String
  graphVersion : String
  deriving DecidableEq

/-- The MetaProvider constructor: each field falls back to its environment
variable and then to the default, via JavaScript truthy-or. -/
def mkMetaProvider (env : EnvConfig)
    (token phoneNumberId verifyToken appSecret graphVersion : Option String) :
    MetaProviderState :=
  { token := jsOrS (token.getD "") env.metaToken
    phoneNumberId := jsOrS (phoneNumberId.getD "") env.metaPhoneNumberId
    verifyToken := jsOrS (verifyToken.getD "") env.metaVerifyToken
    appSecret := jsOrS (appSecret.getD "") env.metaAppSecret
    graphVersion := jsOrS (jsOrS (graphVersion.getD "") env.metaGraphVersion) "v19.0" }

/-- createMetaProvider of the routes module: builds a provider from the
persisted default instance when one exists (failing when it is disabled or
missing credentials), otherwise from environment variables alone. -/
def createMetaProvider (cfg : AppConfig) :
    Except String (MetaProviderState × Option WhatsappInstanceConfig) :=
  match cfg.defaultInstance with
  | some inst =>
    if inst.isActive = some false then
      .error "Default WhatsApp instance is disabled."
    else if inst.accessToken = "" ∨ inst.phoneNumberId = "" then
      .error "Default WhatsApp instance is missing required credentials."
    else
      .ok (mkMetaProvider cfg.env (some inst.accessToken) (some inst.phoneNumberId)
            inst.webhookVerifyToken inst.appSecret none, some inst)
  | none =>
    .ok (mkMetaProvider cfg.env (some cfg.env.metaToken) (some cfg.env.metaPhoneNumberId)
          (some cfg.env.metaVerifyToken) (some cfg.env.metaAppSecret)
          (some cfg.env.metaGraphVersion), none)

/-! ## MetaProvider signature verification -/

/-- MetaProvider.verifyWebhookSignature.  A falsy (absent or empty) header
passes exactly when no app secret is configured; a configured empty secret
bypasses the check; otherwise the sha256= prefix is stripped off the header
(first-occurrence replace) and the remainder is compared with the HMAC hex
digest of the raw body (the timing-safe comparison, including its caught
length-mismatch exception, is equality of the two strings). -/
def verifyWebhookSignature (env : JsEnv) (appSecret : String)
    (sigHeader : Option String) (rawBody : String) : Bool :=
  match sigHeader with
  | none => appSecret == ""
  | some signature =>
    if signature = "" then appSecret == ""
    else if appSecret = "" then true
    else
      let expectedSignature := env.hmacSha256Hex appSecret rawBody
      let signatureHash := replaceFirst signature "sha256=" ""
      signatureHash == expectedSignature

/-- MetaProvider.verifyWebhook: the GET challenge check of the provider
class (the route handler reimplements this logic inline; it is kept for
completeness). -/
def verifyWebhook (provider : MetaProviderState) (mode token : Option String) : Bool :=
  mode == some "subscribe" && token == some provider.verifyToken

/-! ## MetaProvider.send: outbound payload construction -/

/-- The image extension set of MetaProvider.send. -/
def asImage : List String := [".jpg", ".jpeg", ".png", ".gif", ".webp"]

/-- The video extension set of MetaProvider.send. -/
def asVideo : List String := [".mp4", ".mov", ".avi", ".mkv", ".webm"]

/-- The audio extension set of MetaProvider.send. -/
def asAudio : List String := [".mp3", ".mpeg", ".ogg", ".wav", ".aac"]

/-- The document extension set of MetaProvider.send. -/
def asDocument : List String :=
  [".pdf", ".doc", ".docx", ".xls", ".xlsx", ".ppt", ".pptx", ".txt", ".csv"]

/-- The shape of the outbound request body MetaProvider.send constructs: one
of the five provider message kinds, or no kind at all when neither body nor
media is given. -/
inductive OutboundShape where
  | image (link : String) (caption : Option String)
  | video (link : String) (caption : Option String)
  | audio (link : String)
  | document (link : String) (filename : String) (caption : Option String)
  | text (body : String)
  | untyped
  deriving DecidableEq

/-- The outbound request body: recipient after non-digit stripping, and the
chosen shape. -/
structure MetaOutboundPayload where
  toPhone : String
  shape : OutboundShape
  deriving DecidableEq

/-- The media URL with its query and fragment stripped, as send computes it
before extension sniffing. -/
def normalizedMediaUrl (mediaUrl : String) : String :=
  (splitOnChar ((splitOnChar mediaUrl '?').headD "") '#').headD ""

/-- The lower-cased extension of the normalized media URL. -/
def mediaExtension (mediaUrl : String) : String :=
  strToLower (extname (normalizedMediaUrl mediaUrl))

/-- The filename send attaches to document payloads. -/
def mediaFilename (mediaUrl : String) : String :=
  basenameFn (jsOrS (normalizedMediaUrl mediaUrl) "attachment")

/-- A caption is attached only when the body is truthy. -/
def optCaption (body : Option String) : Option String :=
  if optTruthyStr body then body else none

/-- The payload construction of MetaProvider.send: kind chosen by the media
URL extension against the fixed sets, with document as the fallback for
extensionless and unrecognized media; text when only a body is given. -/
def buildOutboundPayload (toPhone : String) (body mediaUrl : Option String) :
    MetaOutboundPayload :=
  let cleanPhone := String.mk (toPhone.data.filter Char.isDigit)
  let shape :=
    if optTruthyStr mediaUrl then
      let u := mediaUrl.getD ""
      let extension := mediaExtension u
      let filename := mediaFilename u
      if asImage.contains extension then .image u (optCaption body)
      else if asVideo.contains extension then .video u (optCaption body)
      else if asAudio.contains extension then .audio u
      else if asDocument.contains extension || extension.data.length = 0 then
        .document u filename (optCaption body)
      else .document u filename (optCaption body)
    else if optTruthyStr body then .text (body.getD "")
    else .untyped
  { toPhone := cleanPhone, shape := shape }

/-! ## The persisted data model and the storage collaborator -/

/-- The metadata sub-object of a persisted media descriptor: either the raw
provider media object tagged under a whatsapp key (inbound), or the constant
origin-upload marker (outbound). -/
inductive MediaMetadata where
  | whatsappRaw (raw : MediaObj)
  | uploadOrigin
  deriving DecidableEq

/-- The storage sub-object of a persisted media descriptor. -/
structure MediaStoragePaths where
  originalPath : Option String
  thumbnailPath : Option String
  previewPath : Option String
  deriving DecidableEq

/-- The MessageMedia descriptor embedded in a persisted message (the shared
schema shape, with ISO timestamps as strings). -/
structure MessageMedia where
  origin : String
  type : String
  status : String
  provider : String
  providerMediaId : Option String
  mimeType : Option String
  filename : Option String
  extension : Option String
  sizeBytes : Option Int
  checksum : Option String
  width : Option Int
  height : Option Int
  durationSeconds : Option Int
  pageCount : Option Int
  url : Option String
  thumbnailUrl : Option String
  previewUrl : Option String
  placeholderUrl : Option String
  storage : Option MediaStoragePaths
  downloadAttempts : Nat
  downloadError : Option String
  downloadedAt : Option String
  thumbnailGeneratedAt : Option String
  metadata : Option MediaMetadata
  deriving DecidableEq

/-- A persisted conversation. -/
structure Conversation where
  id : Nat
  phone : Option String
  createdByUserId : Option Nat
  deriving DecidableEq

/-- A persisted message. -/
structure StoredMessage where
  id : Nat
  conversationId : Nat
  direction : String
  body : Option String
  media : Option MessageMedia
  providerMessageId : Option String
  status : String
  replyToMessageId : Option Nat
  sentByUserId : Option Nat
  deriving DecidableEq

/-- A WebhookEvent audit record: the recorded response status and summary,
plus the id of the message the record was attached to when one was
persisted. -/
structure WebhookEventRec where
  respStatus : Nat
  respBody : String
  messageId : Option Nat
  deriving DecidableEq

/-- The persistent storage state the handlers thread through their calls.
lastAtTouches records each updateConversationLastAt call by conversation id;
nextId feeds fresh row ids. -/
structure Store where
  conversations : List Conversation := []
  messages : List StoredMessage := []
  webhookEvents : List WebhookEventRec := []
  lastAtTouches : List Nat := []
  nextId : Nat := 0
  deriving DecidableEq

/-- storage.getMessageByProviderMessageId. -/
def getMessageByProviderMessageId (st : Store) (pid : String) : Option StoredMessage :=
  st.messages.find? (fun m => m.providerMessageId == some pid)

/-- storage.getMessageById. -/
def getMessageById (st : Store) (id : Nat) : Option StoredMessage :=
  st.messages.find? (fun m => m.id == id)

/-- storage.getConversationByPhone. -/
def getConversationByPhone (st : Store) (phone : Option String) : Option Conversation :=
  st.conversations.find? (fun c => c.phone == phone)

/-- storage.getConversationById. -/
def getConversationById (st : Store) (id : Nat) : Option Conversation :=
  st.conversations.find? (fun c => c.id == id)

/-- storage.createConversation: persists a conversation under a fresh id. -/
def createConversation (st : Store) (phone : Option String) (createdBy : Option Nat) :
    Conversation × Store :=
  let c : Conversation := { id := st.nextId, phone := phone, createdByUserId := createdBy }
  (c, { st with conversations := st.conversations ++ [c], nextId := st.nextId + 1 })

/-- The fields of a message to persist (everything but the generated id). -/
structure NewMessage where
  conversationId : Nat
  direction : String
  body : Option String
  media : Option MessageMedia
  providerMessageId : Option String
  status : String
  replyToMessageId : Option Nat
  sentByUserId : Option Nat
  deriving DecidableEq

/-- storage.createMessage: persists a message under a fresh id. -/
def createMessage (st : Store) (n : NewMessage) : StoredMessage × Store :=
  let m : StoredMessage :=
    { id := st.nextId
      conversationId := n.conversationId
      direction := n.direction
      body := n.body
      media := n.media
      providerMessageId := n.providerMessageId
      status := n.status
      replyToMessageId := n.replyToMessageId
      sentByUserId := n.sentByUserId }
  (m, { st with messages := st.messages ++ [m], nextId := st.nextId + 1 })

/-- storage.logWebhookEvent: appends an audit record (append-only). -/
def logWebhookEvent (st : Store) (r : WebhookEventRec) : Store :=
  { st with webhookEvents := st.webhookEvents ++ [r] }

/-- storage.updateConversationLastAt: records the lastAt touch of a
conversation. -/
def updateConversationLastAt (st : Store) (cid : Nat) : Store :=
  { st with lastAtTouches := st.lastAtTouches ++ [cid] }

/-! ## Route helpers of part_002 -/

/-- getExtensionFromFilename of the routes module: the segment after the last
dot, lower-cased; none for a falsy filename or an empty final segment.  A
filename with no dot yields the whole filename (a faithful quirk of the
split-pop implementation). -/
def getExtensionFromFilename (filename : Option String) : Option String :=
  match filename with
  | none => none
  | some f =>
    if f = "" then none
    else
      let normalized := (splitOnChar f '.').getLastD ""
      if normalized ≠ "" then some (strToLower normalized) else none

/-- extensionToMediaType of the routes module: classifies a filename extension
into the persisted media type. -/
def extensionToMediaType (extension : Option String) : String :=
  match extension with
  | none => "unknown"
  | some e =>
    if e = "" then "unknown"
    else
      let ext := strToLower
        (match e.data with
         | '.' :: r => String.mk r
         | _ => e)
      if ["jpg", "jpeg", "png", "gif", "webp", "heic", "heif", "svg"].contains ext then "image"
      else if ["mp4", "mov", "m4v", "webm", "avi", "mkv"].contains ext then "video"
      else if ["mp3", "wav", "m4a", "ogg", "aac"].contains ext then "audio"
      else if ["pdf", "doc", "docx", "xls", "xlsx", "ppt", "pptx", "txt", "csv",
               "zip", "rar", "7z"].contains ext then "document"
      else "unknown"

/-- createPendingMediaDescriptor of the routes module: turns an incoming media
stub into a pending persisted descriptor without touching the network. -/
def createPendingMediaDescriptor (env : JsEnv)
    (descriptor : Option IncomingMediaDescriptor) : Option MessageMedia :=
  match descriptor with
  | none => none
  | some d =>
    let inferredExtension :=
      (env.getExtensionFromMime d.mimeType).orElse
        (fun _ => getExtensionFromFilename d.filename)
    some {
      origin := "whatsapp"
      type := d.dtype
      status := "pending"
      provider := d.provider
      providerMediaId := d.mediaId
      mimeType := env.normalizeMimeType d.mimeType
      filename := d.filename
      extension := inferredExtension
      sizeBytes := d.sizeBytes
      checksum := d.sha256
      width := d.width
      height := d.height
      durationSeconds := d.durationSeconds
      pageCount := d.pageCount
      url := none
      thumbnailUrl := none
      previewUrl := none
      placeholderUrl := none
      storage := none
      downloadAttempts := 0
      downloadError := none
      downloadedAt := none
      thumbnailGeneratedAt := none
      metadata := some (.whatsappRaw d.metadata) }

/-! ## The webhook POST handler (handleMetaWebhookEvent) -/

/-- Modelled from the spec: the express bootstrap that captures the raw
unparsed request bytes into the rawBody request field is not among the
provided sources; per the spec the signature must be checked against exactly
those bytes, so this request record carries them as an optional field (the
handler in src falls back to re-serializing the parsed body when the capture
is absent).  The remaining fields are the signature header and the parsed
JSON body the handler reads. -/
structure WebhookPostRequest where
  sigHeader : Option String := none
  rawBody : Option String := none
  body : MetaPayload := {}

/-- The observable outcome of one webhook HTTP call: response status and
body, the storage state afterwards, and the hub broadcasts emitted (event
name paired with the id of the message the payload was built from). -/
structure HandlerResult where
  status : Nat
  body : String
  store : Store
  broadcasts : List (String × Nat)
  deriving DecidableEq

/-- Whether a signature secret is configured for the call, as the POST handler
computes it from the instance returned by createMetaProvider with environment
fallback (truthy-or). -/
def hasAppSecretFor (cfg : AppConfig) (inst : Option WhatsappInstanceConfig) : Bool :=
  jsOrS ((inst.bind (fun i => i.appSecret)).getD "") cfg.env.metaAppSecret ≠ ""

/-- The bytes the handler feeds the signature check: the captured raw body
when present and truthy, else the re-serialized parsed body. -/
def effectiveRawBody (env : JsEnv) (req : WebhookPostRequest) : String :=
  match req.rawBody with
  | some rb => if rb ≠ "" then rb else env.stringify req.body
  | none => env.stringify req.body

/-- The duplicate check of the POST handler loop: a truthy providerMessageId
that already identifies a persisted message. -/
def isDupEvent (ev : IncomingMessageEvent) (st : Store) : Bool :=
  match ev.providerMessageId with
  | some pid => pid ≠ "" && (getMessageByProviderMessageId st pid).isSome
  | none => false

/-- The per-event body of the POST handler loop: a duplicate event is skipped
without any state change; otherwise the conversation is resolved or created,
the message persisted with a pending media descriptor, an audit record
appended, lastAt touched, and a message_incoming broadcast emitted.  (The
detached media acquisition task started afterwards lives in
services/media-pipeline, outside the provided sources, and never changes the
HTTP outcome.) -/
def processEvent (env : JsEnv) (ev : IncomingMessageEvent)
    (st : Store) (bs : List (String × Nat)) : Store × List (String × Nat) :=
  if isDupEvent ev st then (st, bs)
  else
    let convSt :=
      match getConversationByPhone st ev.fromPhone with
      | some c => (c, st)
      | none => createConversation st ev.fromPhone none
    let conversation := convSt.1
    let st1 := convSt.2
    let pendingMedia := createPendingMediaDescriptor env ev.media
    let msgSt :=
      createMessage st1 {
        conversationId := conversation.id
        direction := "inbound"
        body := ev.body
        media := pendingMedia
        providerMessageId := ev.providerMessageId
        status := "received"
        replyToMessageId := none
        sentByUserId := none }
    let message := msgSt.1
    let st2 := msgSt.2
    let st3 := logWebhookEvent st2 { respStatus := 200, respBody := "ok", messageId := some message.id }
    let st4 := updateConversationLastAt st3 conversation.id
    (st4, bs ++ [("message_incoming", message.id)])

/-- The parsing stage of the POST handler: zero normalized events acknowledge
with 200 and an audit record; otherwise the events are processed in payload
order and the call acknowledges with 200. -/
def handleParsedEvents (env : JsEnv) (payload : MetaPayload) (st : Store) : HandlerResult :=
  let events := parseIncoming payload
  match events with
  | [] =>
    { status := 200, body := "ok - no events"
      store := logWebhookEvent st { respStatus := 200, respBody := "ok - no events", messageId := none }
      broadcasts := [] }
  | _ =>
    let r := events.foldl (fun acc ev => processEvent env ev acc.1 acc.2)
      (st, ([] : List (String × Nat)))
    { status := 200, body := "ok", store := r.1, broadcasts := r.2 }

/-- handleMetaWebhookEvent: provider construction (its failure is caught and
answered 500 with an audit record), then signature verification when a secret
is configured (raw body preferred, 401 with an audit record on failure), then
parsing and per-event processing. -/
def handleMetaWebhookEvent (env : JsEnv) (cfg : AppConfig)
    (req : WebhookPostRequest) (st : Store) : HandlerResult :=
  match createMetaProvider cfg with
  | .error e =>
    { status := 500, body := e
      store := logWebhookEvent st { respStatus := 500, respBody := e, messageId := none }
      broadcasts := [] }
  | .ok (provider, inst) =>
    if hasAppSecretFor cfg inst &&
        !(verifyWebhookSignature env provider.appSecret req.sigHeader (effectiveRawBody env req)) then
      { status := 401, body := "Invalid signature"
        store := logWebhookEvent st { respStatus := 401, respBody := "Invalid signature", messageId := none }
        broadcasts := [] }
    else
      handleParsedEvents env req.body st

/-- Iterated redelivery of one and the same POST request: the store after n
deliveries and all broadcasts emitted across them, in order. -/
def iterateWebhook (env : JsEnv) (cfg : AppConfig) (req : WebhookPostRequest) :
    Nat → Store → Store × List (String × Nat)
  | 0, st => (st, [])
  | Nat.succ n, st =>
    let r := handleMetaWebhookEvent env cfg req st
    let rest := iterateWebhook env cfg req n r.store
    (rest.1, r.broadcasts ++ rest.2)

/-! ## The webhook GET handler (handleMetaWebhookVerification) -/

/-- The query parameters of a GET verification request. -/
structure WebhookGetRequest where
  mode : Option String := none
  challenge : Option String := none
  verifyTokenParam : Option String := none
  deriving DecidableEq

/-- The static informational body answered to non-verification GET probes. -/
def metaWebhookInfoBody : String :=
  "Meta webhook endpoint is online. To verify, Meta will call this URL with hub.mode=subscribe, hub.verify_token, and hub.challenge query parameters."

/-- Whether the GET request is a verification attempt: a string mode equal to
subscribe case-insensitively, together with a string challenge. -/
def isVerificationAttempt (req : WebhookGetRequest) : Bool :=
  (match req.mode with
   | some m => strToLower m == "subscribe"
   | none => false) && req.challenge.isSome

/-- The verify token the GET handler checks against: the instance token via
nullish fallback to the environment variable, defaulting to empty. -/
def expectedVerifyToken (cfg : AppConfig) (inst : Option WhatsappInstanceConfig) : String :=
  match inst.bind (fun i => i.webhookVerifyToken) with
  | some t => t
  | none => cfg.env.metaVerifyToken

/-- handleMetaWebhookVerification: non-verification GETs are answered with a
static 200 before any configuration is consulted; a verification attempt
answers 500 when no verify token is configured, 403 on token mismatch, and
200 echoing the challenge verbatim on success, each with an audit record; a
provider construction failure is caught and answered 500. -/
def handleMetaWebhookVerification (cfg : AppConfig) (req : WebhookGetRequest)
    (st : Store) : HandlerResult :=
  if !(isVerificationAttempt req) then
    { status := 200, body := metaWebhookInfoBody, store := st, broadcasts := [] }
  else
    match createMetaProvider cfg with
    | .error e =>
      { status := 500, body := "Error"
        store := logWebhookEvent st { respStatus := 500, respBody := e, messageId := none }
        broadcasts := [] }
    | .ok (_, inst) =>
      let expectedToken := expectedVerifyToken cfg inst
      if expectedToken = "" then
        { status := 500
          body := "Verify token is not configured. Set META_VERIFY_TOKEN or update the Default WhatsApp Instance."
          store := logWebhookEvent st { respStatus := 500, respBody := "Missing verify token configuration", messageId := none }
          broadcasts := [] }
      else if req.verifyTokenParam ≠ some expectedToken then
        { status := 403, body := "Forbidden"
          store := logWebhookEvent st { respStatus := 403, respBody := "Forbidden", messageId := none }
          broadcasts := [] }
      else
        let ch := req.challenge.getD ""
        { status := 200, body := ch
          store := logWebhookEvent st { respStatus := 200, respBody := ch, messageId := none }
          broadcasts := [] }

/-! ## The send endpoint (POST /api/message/send) -/

/-- A send request body, plus the authenticated user id the handler reads off
the request. -/
structure SendRequest where
  toPhone : Option String := none
  body : Option String := none
  media_url : Option String := none
  conversationId : Option Nat := none
  replyToMessageId : Option Nat := none
  userId : Option Nat := none
  deriving DecidableEq

/-- The observable outcome of one send call: HTTP status, the ok flag and
message of a success body or the error message of a failure body, the storage
state, the broadcasts, and how many times the provider dispatch was
invoked. -/
structure SendResult where
  status : Nat
  ok : Bool
  message : Option StoredMessage
  errorMsg : Option String
  store : Store
  broadcasts : List (String × Nat)
  dispatchCount : Nat
  deriving DecidableEq

/-- An error response of the send handler (no message persisted by the
response itself, no broadcast, no dispatch). -/
def sendErr (status : Nat) (msg : String) (st : Store) : SendResult :=
  { status := status, ok := false, message := none, errorMsg := some msg
    store := st, broadcasts := [], dispatchCount := 0 }

/-- The conversation resolution of the send handler: a given conversationId
must exist (404 otherwise); else the recipient phone resolves to the existing
conversation or a newly created one. -/
def resolveSendConversation (req : SendRequest) (st : Store) :
    Except (Nat × String) (Conversation × Store) :=
  match req.conversationId with
  | some cid =>
    match getConversationById st cid with
    | some c => .ok (c, st)
    | none => .error (404, "Conversation not found.")
  | none =>
    match req.toPhone with
    | none => .error (400, "Recipient phone number is required.")
    | some toStr =>
      if toStr = "" then .error (400, "Recipient phone number is required.")
      else
        match getConversationByPhone st (some toStr) with
        | some c => .ok (c, st)
        | none => .ok (createConversation st (some toStr) req.userId)

/-- The reply-target validation of the send handler: a set replyToMessageId
must reference an existing, inbound message of the resolved conversation; the
three violations are each client errors (400). -/
def checkReplyTarget (st : Store) (conv : Conversation) (replyTo : Option Nat) :
    Except String (Option StoredMessage) :=
  match replyTo with
  | none => .ok none
  | some rid =>
    match getMessageById st rid with
    | none => .error "Reply target not found."
    | some t =>
      if t.conversationId ≠ conv.id then
        .error "Reply target belongs to a different conversation."
      else if t.direction ≠ "inbound" then
        .error "You can only reply to incoming messages."
      else .ok (some t)

/-- The outbound media descriptor the send handler persists for a truthy
media_url: a ready, upload-origin descriptor with type and mime inferred from
the filename extension. -/
def buildOutboundMedia (env : JsEnv) (req : SendRequest) : Option MessageMedia :=
  if !(optTruthyStr req.media_url) then none
  else
    let mu := req.media_url.getD ""
    let relativeMediaPath := env.extractRelativeMediaPath mu
    let inferredFilename :=
      match relativeMediaPath with
      | some rp => some (basenameFn rp)
      | none => some (basenameFn (normalizedMediaUrl mu))
    let extension := getExtensionFromFilename inferredFilename
    let outboundMediaType := extensionToMediaType extension
    let inferredMime :=
      (match extension with
       | some e => env.getMimeTypeFromExtension e
       | none => none).orElse
        (fun _ =>
          match extension with
          | some e => env.getMimeType e
          | none => none)
    some {
      origin := "upload"
      type := outboundMediaType
      status := "ready"
      provider := "local"
      providerMediaId := none
      mimeType := inferredMime
      filename := inferredFilename
      extension := extension
      sizeBytes := none
      checksum := none
      width := none
      height := none
      durationSeconds := none
      pageCount := none
      url :=
        (match relativeMediaPath with
         | some rp => some (env.toUrlPath rp)
         | none => some ((splitOnChar mu '?').headD ""))
      thumbnailUrl := none
      previewUrl := none
      placeholderUrl := none
      storage :=
        (match relativeMediaPath with
         | some rp => some { originalPath := some rp, thumbnailPath := none, previewPath := none }
         | none => none)
      downloadAttempts := 0
      downloadError := none
      downloadedAt := some env.nowIso
      thumbnailGeneratedAt := none
      metadata := some .uploadOrigin }

/-- The send endpoint handler.  The upstream argument is the outcome of the
provider HTTP dispatch (the id of the provider message on success): the
network call itself is outside the embedding, but its invocation is counted
and its failure is caught, never failing the request - the message is then
persisted with status failed.  Provider construction failure escapes to the
catch-all 500.  The response payload carries the persisted message (the reply
join and signed-URL decoration applied to it live outside the provided
sources and do not change which message is returned). -/
def sendMessageHandler (env : JsEnv) (cfg : AppConfig)
    (upstream : Except String (Option String)) (req : SendRequest) (st : Store) :
    SendResult :=
  if !req.conversationId.isSome && !(optTruthyStr req.toPhone) then
    sendErr 400 "conversationId or to is required." st
  else if !(optTruthyStr req.body) && !(optTruthyStr req.media_url) then
    sendErr 400 "body or media_url is required." st
  else
    match resolveSendConversation req st with
    | .error es => sendErr es.1 es.2 st
    | .ok (conversation, st1) =>
      match checkReplyTarget st1 conversation req.replyToMessageId with
      | .error msg => sendErr 400 msg st1
      | .ok _replyTarget =>
        let outboundMedia := buildOutboundMedia env req
        match createMetaProvider cfg with
        | .error e => sendErr 500 e st1
        | .ok (provider, _inst) =>
          let dispatchResult : Except String (Option String) :=
            if provider.token = "" ∨ provider.phoneNumberId = "" then
              .error "Meta credentials not configured. Please set META_TOKEN and META_PHONE_NUMBER_ID environment variables."
            else upstream
          let statusStr := match dispatchResult with
            | .ok _ => "sent"
            | .error _ => "failed"
          let providerMessageId :=
            match dispatchResult with
            | .ok (some pid) => if pid ≠ "" then some pid else none
            | .ok none => none
            | .error _ => none
          let msgSt :=
            createMessage st1 {
              conversationId := conversation.id
              direction := "outbound"
              body := if optTruthyStr req.body then req.body else none
              media := outboundMedia
              providerMessageId := providerMessageId
              status := statusStr
              replyToMessageId := req.replyToMessageId
              sentByUserId := req.userId }
          let message := msgSt.1
          let st2 := msgSt.2
          let st3 := updateConversationLastAt st2 conversation.id
          { status := 200, ok := true, message := some message, errorMsg := none
            store := st3, broadcasts := [("message_outgoing", message.id)]
            dispatchCount := 1 }

/-! ## Helper lemmas -/

/-- Replacing a first occurrence when the whole pattern sits at the front
replaces exactly the pattern. -/
theorem listReplaceFirst_at_front (pat rest repl : List Char) (hpat : pat ≠ []) :
    listReplaceFirst (pat ++ rest) pat repl = repl ++ rest := by
  cases pat with
  | nil => exact absurd rfl hpat
  | cons c cs =>
    show listReplaceFirst (c :: (cs ++ rest)) (c :: cs) repl = repl ++ rest
    unfold listReplaceFirst
    rw [if_pos (List.isPrefixOf_iff_prefix.mpr
      (by simp))]
    have hdrop : (c :: (cs ++ rest)).drop (c :: cs).length = rest := by
      simp
    rw [hdrop]

/-- Stripping the sha256= prefix off a correctly formatted header recovers the
digest. -/
theorem replaceFirst_sha256_strip (d : String) :
    replaceFirst ("sha256=" ++ d) "sha256=" "" = d := by
  unfold replaceFirst
  rw [String.data_append]
  rw [listReplaceFirst_at_front _ _ _ (by decide)]
  show String.mk ([] ++ d.data) = d
  simp

/-- A string with the sha256= prefix is never empty. -/
theorem sha256_header_ne_empty (d : String) : ("sha256=" ++ d) ≠ "" := by
  intro h
  have := congrArg String.data h
  rw [String.data_append] at this
  have h2 := List.append_eq_nil.mp this
  exact absurd h2.1 (by decide)

/-- The resolved provider app secret is nonempty exactly when the POST handler
considers a secret configured. -/
theorem appSecret_resolved (cfg : AppConfig) (pr : MetaProviderState)
    (inst : Option WhatsappInstanceConfig)
    (hok : createMetaProvider cfg = .ok (pr, inst)) :
    (pr.appSecret ≠ "") = (hasAppSecretFor cfg inst = true) := by
  unfold createMetaProvider at hok
  cases hinst : cfg.defaultInstance with
  | none =>
    rw [hinst] at hok
    injection hok with h
    injection h with h1 h2
    subst h1
    subst h2
    simp only [mkMetaProvider, hasAppSecretFor, jsOrS, Option.getD_some, Option.bind_none,
      Option.getD_none]
    by_cases h : cfg.env.metaAppSecret = "" <;> simp [h]
  | some i =>
    rw [hinst] at hok
    dsimp only at hok
    by_cases hact : i.isActive = some false
    · simp [hact] at hok
    · rw [if_neg hact] at hok
      by_cases hcred : i.accessToken = "" ∨ i.phoneNumberId = ""
      · simp [hcred] at hok
      · rw [if_neg hcred] at hok
        injection hok with h
        injection h with h1 h2
        subst h1
        subst h2
        simp only [mkMetaProvider, hasAppSecretFor, jsOrS, Option.bind_some]
        by_cases h : (i.appSecret.getD "") = "" <;>
          by_cases h2 : cfg.env.metaAppSecret = "" <;>
          simp [h, h2]

/-- When provider construction succeeds and the signature stage passes (no
configured secret, or a valid signature), the POST handler proceeds to the
parsing stage. -/
theorem handleMetaWebhookEvent_gate (env : JsEnv) (cfg : AppConfig)
    (req : WebhookPostRequest) (st : Store) (pr : MetaProviderState)
    (inst : Option WhatsappInstanceConfig)
    (hok : createMetaProvider cfg = .ok (pr, inst))
    (hsig : hasAppSecretFor cfg inst = false ∨
      verifyWebhookSignature env pr.appSecret req.sigHeader (effectiveRawBody env req) = true) :
    handleMetaWebhookEvent env cfg req st = handleParsedEvents env req.body st := by
  unfold handleMetaWebhookEvent
  rw [hok]
  rcases hsig with h | h <;> simp [h]

/-- The parsing stage always acknowledges with HTTP 200. -/
theorem handleParsedEvents_status (env : JsEnv) (payload : MetaPayload) (st : Store) :
    (handleParsedEvents env payload st).status = 200 := by
  unfold handleParsedEvents
  cases h : parseIncoming payload <;> simp [h]

/-! ## Shared concrete fixtures for the witnesses -/

/-- A concrete ambient environment for witness evaluation: the HMAC digest is
a tagged concatenation, the other collaborators are simple total functions. -/
def fixtureEnv : JsEnv :=
  { hmacSha256Hex := fun s b => s ++ "/" ++ b
    stringify := fun _ => "serialized"
    nowIso := "2026-01-01T00:00:00.000Z"
    getExtensionFromMime := fun _ => none
    normalizeMimeType := fun m => m
    extractRelativeMediaPath := fun _ => none
    buildSignedMediaPath := fun p => p
    toUrlPath := fun p => p
    getMimeTypeFromExtension := fun _ => none
    getMimeType := fun _ => none }

/-- A configuration with no default instance and no environment secrets. -/
def fixtureCfgOpen : AppConfig := {}

/-- A configuration with a signature secret in the environment. -/
def fixtureCfgSecret : AppConfig := { env := { metaAppSecret := "sec" } }

/-- A configuration with a verify token in the environment. -/
def fixtureCfgToken : AppConfig := { env := { metaVerifyToken := "tok" } }

/-- A configuration with send credentials in the environment. -/
def fixtureCfgCred : AppConfig := { env := { metaToken := "T", metaPhoneNumberId := "P" } }

/-- A concrete inbound text message. -/
def fixtureMsgText : MetaMessage :=
  { msgFrom := some "15550001111", id := some "wamid.A"
    timestamp := some "1700000000", mtype := some "text"
    text := some { body := some "hello" } }

/-- A concrete one-message payload around fixtureMsgText. -/
def fixturePayload : MetaPayload :=
  { entry := some [ { changes := some [ { value := some { messages := some [fixtureMsgText] } } ] } ] }

/-- A concrete POST request carrying fixturePayload with a captured raw
body. -/
def fixtureReq : WebhookPostRequest :=
  { rawBody := some "RAWBYTES", body := fixturePayload }

/-! ## C3: the signature bypass policy -/

/-- C3: verifyWebhookSignature passes every request when no app secret is
configured, with or without a signature header, and fails every request with
an absent header when a secret is configured. -/
theorem verifyWebhookSignature_bypass_policy (env : JsEnv) (appSecret : String)
    (sigHeader : Option String) (rawBody : String) :
    (appSecret = "" → verifyWebhookSignature env appSecret sigHeader rawBody = true) ∧
    (appSecret ≠ "" → sigHeader = none →
      verifyWebhookSignature env appSecret sigHeader rawBody = false) := by
  constructor
  · intro h
    subst h
    cases sigHeader with
    | none => simp [verifyWebhookSignature]
    | some s =>
      unfold verifyWebhookSignature
      by_cases hs : s = "" <;> simp [hs]
  · intro h hnone
    subst hnone
    simp [verifyWebhookSignature, h]

/-- Witness for C3 at concrete inputs. -/
theorem verifyWebhookSignature_bypass_policy_witness :
    verifyWebhookSignature fixtureEnv "" none "body" = true ∧
    verifyWebhookSignature fixtureEnv "sec" none "body" = false :=
  ⟨(verifyWebhookSignature_bypass_policy fixtureEnv "" none "body").1 rfl,
   (verifyWebhookSignature_bypass_policy fixtureEnv "sec" none "body").2 (by decide) rfl⟩

/-! ## C7: outbound kind selection -/

/-- Elements of the video extension set are not in the image set. -/
theorem asVideo_not_asImage (e : String) (h : asVideo.contains e = true) :
    asImage.contains e = false := by
  have hm : e ∈ asVideo := by simpa using h
  simp only [asVideo, List.mem_cons, List.mem_singleton, List.not_mem_nil, or_false] at hm
  rcases hm with h1 | h1 | h1 | h1 | h1 <;> subst h1 <;> decide

/-- Elements of the audio extension set are in neither the image nor the
video set. -/
theorem asAudio_not_asImage_asVideo (e : String) (h : asAudio.contains e = true) :
    asImage.contains e = false ∧ asVideo.contains e = false := by
  have hm : e ∈ asAudio := by simpa using h
  simp only [asAudio, List.mem_cons, List.mem_singleton, List.not_mem_nil, or_false] at hm
  rcases hm with h1 | h1 | h1 | h1 | h1 <;> subst h1 <;> exact ⟨by decide, by decide⟩

/-- C7: MetaProvider.send chooses the outbound message kind from the media
URL extension alone: each recognized extension set selects its kind, every
extension outside the image, video and audio sets (the document set, an
unrecognized extension, or no extension at all) selects the document kind,
and a truthy body without a media URL selects the text kind. -/
theorem buildOutboundPayload_kind_selection
    (toPhone : String) (body : Option String) (u : String) (hu : u ≠ "") :
    (asImage.contains (mediaExtension u) = true →
      (buildOutboundPayload toPhone body (some u)).shape =
        OutboundShape.image u (optCaption body)) ∧
    (asVideo.contains (mediaExtension u) = true →
      (buildOutboundPayload toPhone body (some u)).shape =
        OutboundShape.video u (optCaption body)) ∧
    (asAudio.contains (mediaExtension u) = true →
      (buildOutboundPayload toPhone body (some u)).shape =
        OutboundShape.audio u) ∧
    (asImage.contains (mediaExtension u) = false →
     asVideo.contains (mediaExtension u) = false →
     asAudio.contains (mediaExtension u) = false →
      (buildOutboundPayload toPhone body (some u)).shape =
        OutboundShape.document u (mediaFilename u) (optCaption body)) ∧
    (optTruthyStr body = true →
      (buildOutboundPayload toPhone body none).shape =
        OutboundShape.text (body.getD "")) := by
  have htr : optTruthyStr (some u) = true := by simp [optTruthyStr, hu]
  have hnone : optTruthyStr (none : Option String) = false := rfl
  refine ⟨?_, ?_, ?_, ?_, ?_⟩
  · intro hi
    have hi2 : mediaExtension u ∈ asImage := by simpa using hi
    simp [buildOutboundPayload, htr, hi2]
  · intro hv
    have hv2 : mediaExtension u ∈ asVideo := by simpa using hv
    have hi2 : mediaExtension u ∉ asImage := by
      simpa using asVideo_not_asImage _ hv
    simp [buildOutboundPayload, htr, hv2, hi2]
  · intro ha
    obtain ⟨h1, h2⟩ := asAudio_not_asImage_asVideo _ ha
    have ha2 : mediaExtension u ∈ asAudio := by simpa using ha
    have hi2 : mediaExtension u ∉ asImage := by simpa using h1
    have hv2 : mediaExtension u ∉ asVideo := by simpa using h2
    simp [buildOutboundPayload, htr, ha2, hi2, hv2]
  · intro h1 h2 h3
    have hi2 : mediaExtension u ∉ asImage := by simpa using h1
    have hv2 : mediaExtension u ∉ asVideo := by simpa using h2
    have ha2 : mediaExtension u ∉ asAudio := by simpa using h3
    by_cases hd : asDocument.contains (mediaExtension u) = true
    · have hd2 : mediaExtension u ∈ asDocument := by simpa using hd
      simp [buildOutboundPayload, htr, hi2, hv2, ha2, hd2]
    · have hd2 : mediaExtension u ∉ asDocument := by simpa using hd
      by_cases hlen : (mediaExtension u).data.length = 0 <;>
        simp [buildOutboundPayload, htr, hi2, hv2, ha2, hd2, hlen]
  · intro hb
    simp [buildOutboundPayload, hnone, hb]

/-- Witness for C7 at concrete inputs: a png image URL with query string, an
unrecognized extension, an extensionless URL, and a text-only send. -/
theorem buildOutboundPayload_kind_selection_witness :
    (asImage.contains (mediaExtension "https://h/pic.PnG?sig=1") = true ∧
      (buildOutboundPayload "+1 555" (some "cap") (some "https://h/pic.PnG?sig=1")).shape =
        OutboundShape.image "https://h/pic.PnG?sig=1" (optCaption (some "cap"))) ∧
    ((buildOutboundPayload "+1 555" none (some "https://h/data.xyz")).shape =
      OutboundShape.document "https://h/data.xyz" (mediaFilename "https://h/data.xyz") none) ∧
    ((buildOutboundPayload "+1 555" none (some "https://h/noext")).shape =
      OutboundShape.document "https://h/noext" (mediaFilename "https://h/noext") none) ∧
    ((buildOutboundPayload "+1 555" (some "hi") none).shape = OutboundShape.text "hi") := by
  refine ⟨⟨by decide, ?_⟩, ?_, ?_, ?_⟩
  · exact (buildOutboundPayload_kind_selection "+1 555" (some "cap")
      "https://h/pic.PnG?sig=1" (by decide)).1 (by decide)
  · exact (buildOutboundPayload_kind_selection "+1 555" none
      "https://h/data.xyz" (by decide)).2.2.2.1 (by decide) (by decide) (by decide)
  · exact (buildOutboundPayload_kind_selection "+1 555" none
      "https://h/noext" (by decide)).2.2.2.1 (by decide) (by decide) (by decide)
  · exact (buildOutboundPayload_kind_selection "+1 555" (some "hi")
      "x" (by decide)).2.2.2.2 (by decide)

/-! ## C5: the GET verification flow -/

/-- C5: the GET verification flow: a non-verification GET is answered with
the static informational 200 before any configuration is consulted; with a
constructed provider, a missing configured verify token answers 500, a token
mismatch answers 403 Forbidden, and a matching token echoes the challenge
verbatim with 200. -/
theorem handleMetaWebhookVerification_flow (cfg : AppConfig)
    (req : WebhookGetRequest) (st : Store) :
    (isVerificationAttempt req = false →
      handleMetaWebhookVerification cfg req st =
        { status := 200, body := metaWebhookInfoBody, store := st, broadcasts := [] }) ∧
    (∀ pr inst, isVerificationAttempt req = true →
      createMetaProvider cfg = .ok (pr, inst) →
      ((expectedVerifyToken cfg inst = "" →
        (handleMetaWebhookVerification cfg req st).status = 500) ∧
       (expectedVerifyToken cfg inst ≠ "" →
        req.verifyTokenParam ≠ some (expectedVerifyToken cfg inst) →
        (handleMetaWebhookVerification cfg req st).status = 403 ∧
        (handleMetaWebhookVerification cfg req st).body = "Forbidden") ∧
       (∀ ch, expectedVerifyToken cfg inst ≠ "" →
        req.verifyTokenParam = some (expectedVerifyToken cfg inst) →
        req.challenge = some ch →
        (handleMetaWebhookVerification cfg req st).status = 200 ∧
        (handleMetaWebhookVerification cfg req st).body = ch))) := by
  constructor
  · intro h
    simp [handleMetaWebhookVerification, h]
  · intro pr inst hatt hok
    refine ⟨?_, ?_, ?_⟩
    · intro hmiss
      simp [handleMetaWebhookVerification, hatt, hok, hmiss]
    · intro hsome hmismatch
      constructor <;> simp [handleMetaWebhookVerification, hatt, hok, hsome, hmismatch]
    · intro ch hsome hmatch hch
      constructor <;>
        simp [handleMetaWebhookVerification, hatt, hok, hsome, hmatch, hch]

/-- Witness for C5: a subscribe request with the correct token echoes the
challenge with 200 against a concrete configuration. -/
theorem handleMetaWebhookVerification_flow_witness :
    isVerificationAttempt
      { mode := some "SUBSCRIBE", challenge := some "123", verifyTokenParam := some "tok" } = true ∧
    (handleMetaWebhookVerification fixtureCfgToken
      { mode := some "SUBSCRIBE", challenge := some "123", verifyTokenParam := some "tok" }
      {}).status = 200 ∧
    (handleMetaWebhookVerification fixtureCfgToken
      { mode := some "SUBSCRIBE", challenge := some "123", verifyTokenParam := some "tok" }
      {}).body = "123" := by
  refine ⟨by decide, ?_⟩
  have h := ((handleMetaWebhookVerification_flow fixtureCfgToken
    { mode := some "SUBSCRIBE", challenge := some "123", verifyTokenParam := some "tok" }
    {}).2 (mkMetaProvider fixtureCfgToken.env (some "") (some "") (some "tok") (some "")
      (some "")) none (by decide) rfl).2.2 "123" (by decide) (by decide) rfl
  exact h

/-! ## C4: empty-payload acknowledgement -/

/-- C4: when provider construction succeeds and the signature stage passes, a
POST body that normalizes to zero events is acknowledged with HTTP 200 and
the body ok - no events, an audit record is appended, and no message is
persisted. -/
theorem handleMetaWebhookEvent_empty_payload
    (env : JsEnv) (cfg : AppConfig) (req : WebhookPostRequest) (st : Store)
    (pr : MetaProviderState) (inst : Option WhatsappInstanceConfig)
    (hok : createMetaProvider cfg = .ok (pr, inst))
    (hsig : hasAppSecretFor cfg inst = false ∨
      verifyWebhookSignature env pr.appSecret req.sigHeader (effectiveRawBody env req) = true)
    (hparse : parseIncoming req.body = []) :
    handleMetaWebhookEvent env cfg req st =
      { status := 200, body := "ok - no events"
        store := logWebhookEvent st { respStatus := 200, respBody := "ok - no events", messageId := none }
        broadcasts := [] } ∧
    (handleMetaWebhookEvent env cfg req st).store.messages = st.messages := by
  have hgate := handleMetaWebhookEvent_gate env cfg req st pr inst hok hsig
  rw [hgate]
  constructor
  · simp [handleParsedEvents, hparse]
  · simp [handleParsedEvents, hparse, logWebhookEvent]

/-- A POST request with a syntactically valid body carrying no messages
arrays. -/
def fixtureEmptyReq : WebhookPostRequest :=
  { rawBody := some "RAWBYTES", body := { entry := some [ { changes := some [ { value := some {} } ] } ] } }

/-- Witness for C4 at concrete inputs. -/
theorem handleMetaWebhookEvent_empty_payload_witness :
    parseIncoming fixtureEmptyReq.body = [] ∧
    (handleMetaWebhookEvent fixtureEnv fixtureCfgOpen fixtureEmptyReq {}).status = 200 ∧
    (handleMetaWebhookEvent fixtureEnv fixtureCfgOpen fixtureEmptyReq {}).body = "ok - no events" ∧
    (handleMetaWebhookEvent fixtureEnv fixtureCfgOpen fixtureEmptyReq {}).store.messages = [] := by
  have h := handleMetaWebhookEvent_empty_payload fixtureEnv fixtureCfgOpen fixtureEmptyReq {}
    (mkMetaProvider fixtureCfgOpen.env (some "") (some "") (some "") (some "") (some "")) none
    rfl (Or.inl (by decide)) rfl
  refine ⟨rfl, ?_, ?_, ?_⟩ <;> simp [h.1, logWebhookEvent]

/-! ## C2: signature enforcement -/

/-- C2: with a secret configured and the raw body captured, a POST without a
signature header or with a header whose stripped digest mismatches the HMAC
over the exact raw bytes is answered 401 with no message persisted and no
broadcast, while a header carrying the correctly computed digest over the raw
bytes is accepted and the call proceeds to parsing (a 200 acknowledgement). -/
theorem handleMetaWebhookEvent_signature_enforcement
    (env : JsEnv) (cfg : AppConfig) (req : WebhookPostRequest) (st : Store)
    (pr : MetaProviderState) (inst : Option WhatsappInstanceConfig) (rb : String)
    (hok : createMetaProvider cfg = .ok (pr, inst))
    (hsecret : hasAppSecretFor cfg inst = true)
    (hraw : req.rawBody = some rb) (hrb : rb ≠ "") :
    (req.sigHeader = none →
      (handleMetaWebhookEvent env cfg req st).status = 401 ∧
      (handleMetaWebhookEvent env cfg req st).body = "Invalid signature" ∧
      (handleMetaWebhookEvent env cfg req st).store.messages = st.messages ∧
      (handleMetaWebhookEvent env cfg req st).broadcasts = []) ∧
    (∀ s, req.sigHeader = some s →
      replaceFirst s "sha256=" "" ≠ env.hmacSha256Hex pr.appSecret rb →
      (handleMetaWebhookEvent env cfg req st).status = 401 ∧
      (handleMetaWebhookEvent env cfg req st).body = "Invalid signature" ∧
      (handleMetaWebhookEvent env cfg req st).store.messages = st.messages ∧
      (handleMetaWebhookEvent env cfg req st).broadcasts = []) ∧
    (req.sigHeader = some ("sha256=" ++ env.hmacSha256Hex pr.appSecret rb) →
      handleMetaWebhookEvent env cfg req st = handleParsedEvents env req.body st ∧
      (handleMetaWebhookEvent env cfg req st).status = 200) := by
  have hps : pr.appSecret ≠ "" := by
    rw [appSecret_resolved cfg pr inst hok]
    exact hsecret
  have herb : effectiveRawBody env req = rb := by
    simp [effectiveRawBody, hraw, hrb]
  refine ⟨?_, ?_, ?_⟩
  · intro hdr
    have hverify : verifyWebhookSignature env pr.appSecret req.sigHeader (effectiveRawBody env req) = false := by
      simp [verifyWebhookSignature, hdr, hps]
    unfold handleMetaWebhookEvent
    rw [hok]
    refine ⟨?_, ?_, ?_, ?_⟩ <;> simp [hsecret, hverify, logWebhookEvent]
  · intro s hdr hmismatch
    have hverify : verifyWebhookSignature env pr.appSecret req.sigHeader (effectiveRawBody env req) = false := by
      rw [hdr, herb]
      unfold verifyWebhookSignature
      by_cases hs : s = ""
      · simp [hs, hps]
      · simp [hs, hps, hmismatch]
    unfold handleMetaWebhookEvent
    rw [hok]
    refine ⟨?_, ?_, ?_, ?_⟩ <;> simp [hsecret, hverify, logWebhookEvent]
  · intro hdr
    have hverify : verifyWebhookSignature env pr.appSecret req.sigHeader (effectiveRawBody env req) = true := by
      rw [hdr, herb]
      simp only [verifyWebhookSignature]
      rw [if_neg (sha256_header_ne_empty (env.hmacSha256Hex pr.appSecret rb))]
      rw [if_neg hps]
      simp [replaceFirst_sha256_strip]
    have hgate := handleMetaWebhookEvent_gate env cfg req st pr inst hok (Or.inr hverify)
    exact ⟨hgate, by rw [hgate]; exact handleParsedEvents_status env req.body st⟩

/-- Witness for C2 at concrete inputs: with the fixture secret configured, a
missing header and a wrong header are answered 401 with nothing persisted,
and the correctly computed header is accepted with 200. -/
theorem handleMetaWebhookEvent_signature_enforcement_witness :
    ((handleMetaWebhookEvent fixtureEnv fixtureCfgSecret fixtureReq {}).status = 401 ∧
     (handleMetaWebhookEvent fixtureEnv fixtureCfgSecret fixtureReq {}).store.messages = []) ∧
    ((handleMetaWebhookEvent fixtureEnv fixtureCfgSecret
        { fixtureReq with sigHeader := some "sha256=wrong" } {}).status = 401) ∧
    ((handleMetaWebhookEvent fixtureEnv fixtureCfgSecret
        { fixtureReq with sigHeader := some ("sha256=" ++ fixtureEnv.hmacSha256Hex "sec" "RAWBYTES") } {}).status = 200) := by
  have hok : createMetaProvider fixtureCfgSecret =
      .ok (mkMetaProvider fixtureCfgSecret.env (some "") (some "") (some "") (some "sec")
        (some ""), none) := rfl
  have h1 := handleMetaWebhookEvent_signature_enforcement fixtureEnv fixtureCfgSecret
    fixtureReq {} _ none "RAWBYTES" hok (by decide) rfl (by decide)
  have h2 := handleMetaWebhookEvent_signature_enforcement fixtureEnv fixtureCfgSecret
    { fixtureReq with sigHeader := some "sha256=wrong" } {} _ none "RAWBYTES" hok (by decide)
    rfl (by decide)
  have h3 := handleMetaWebhookEvent_signature_enforcement fixtureEnv fixtureCfgSecret
    { fixtureReq with sigHeader := some ("sha256=" ++ fixtureEnv.hmacSha256Hex "sec" "RAWBYTES") }
    {} _ none "RAWBYTES" hok (by decide) rfl (by decide)
  refine ⟨⟨(h1.1 rfl).1, (h1.1 rfl).2.2.1⟩, ?_, ?_⟩
  · exact ((h2.2.1) "sha256=wrong" rfl (by decide)).1
  · exact (h3.2.2 rfl).2

/-! ## C1: idempotent ingestion -/

/-- Finding in an appended list reduces to the right part when the left part
has no hit. -/
theorem find?_append_none {α : Type} (l1 l2 : List α) (p : α → Bool)
    (h : l1.find? p = none) : (l1 ++ l2).find? p = l2.find? p := by
  rw [List.find?_append, h]
  rfl

/-- A duplicate event is skipped without any change to the store or the
broadcast list. -/
theorem processEvent_dup (env : JsEnv) (ev : IncomingMessageEvent)
    (st : Store) (bs : List (String × Nat))
    (hdup : isDupEvent ev st = true) :
    processEvent env ev st bs = (st, bs) := by
  unfold processEvent
  rw [hdup]
  rfl

/-- Processing a non-duplicate event appends exactly one message carrying the
event fields, one audit record tagged with its id, and one message_incoming
broadcast. -/
theorem processEvent_fresh (env : JsEnv) (ev : IncomingMessageEvent)
    (st : Store) (bs : List (String × Nat))
    (hnd : isDupEvent ev st = false) :
    ∃ m : StoredMessage,
      (processEvent env ev st bs).1.messages = st.messages ++ [m] ∧
      (processEvent env ev st bs).1.webhookEvents =
        st.webhookEvents ++ [{ respStatus := 200, respBody := "ok", messageId := some m.id }] ∧
      (processEvent env ev st bs).2 = bs ++ [("message_incoming", m.id)] ∧
      m.providerMessageId = ev.providerMessageId ∧
      m.direction = "inbound" ∧
      m.body = ev.body ∧
      m.media = createPendingMediaDescriptor env ev.media ∧
      m.status = "received" := by
  cases hconv : getConversationByPhone st ev.fromPhone with
  | some c =>
    refine ⟨{ id := st.nextId, conversationId := c.id, direction := "inbound",
              body := ev.body, media := createPendingMediaDescriptor env ev.media,
              providerMessageId := ev.providerMessageId, status := "received",
              replyToMessageId := none, sentByUserId := none },
      ?_, ?_, ?_, rfl, rfl, rfl, rfl, rfl⟩ <;>
      simp [processEvent, hnd, hconv, createMessage, createConversation,
        logWebhookEvent, updateConversationLastAt]
  | none =>
    refine ⟨{ id := st.nextId + 1, conversationId := st.nextId, direction := "inbound",
              body := ev.body, media := createPendingMediaDescriptor env ev.media,
              providerMessageId := ev.providerMessageId, status := "received",
              replyToMessageId := none, sentByUserId := none },
      ?_, ?_, ?_, rfl, rfl, rfl, rfl, rfl⟩ <;>
      simp [processEvent, hnd, hconv, createMessage, createConversation,
        logWebhookEvent, updateConversationLastAt]

/-- A fold of the event loop over events that are all duplicates against the
current store leaves the store and the broadcasts untouched. -/
theorem foldl_processEvent_all_dup (env : JsEnv) (evs : List IncomingMessageEvent) :
    ∀ st bs, (∀ ev ∈ evs, isDupEvent ev st = true) →
      evs.foldl (fun acc ev => processEvent env ev acc.1 acc.2) (st, bs) = (st, bs) := by
  induction evs with
  | nil => intro st bs _; rfl
  | cons e rest ih =>
    intro st bs h
    rw [List.foldl_cons]
    have hstep : processEvent env e st bs = (st, bs) :=
      processEvent_dup env e st bs (h e (by simp))
    dsimp only
    rw [hstep]
    exact ih st bs (fun ev hm => h ev (by simp [hm]))

/-- The parsing stage on a nonempty event list that consists only of
duplicates acknowledges 200 ok and changes nothing. -/
theorem handleParsedEvents_all_dup (env : JsEnv) (payload : MetaPayload) (st : Store)
    (hne : parseIncoming payload ≠ [])
    (hdup : ∀ ev ∈ parseIncoming payload, isDupEvent ev st = true) :
    handleParsedEvents env payload st =
      { status := 200, body := "ok", store := st, broadcasts := [] } := by
  have hfold := foldl_processEvent_all_dup env (parseIncoming payload) st [] hdup
  unfold handleParsedEvents
  cases hp : parseIncoming payload with
  | nil => exact absurd hp hne
  | cons e rest =>
    rw [hp] at hfold
    simp only [hp, hfold]

/-- C1: ingestion is idempotent on the provider message id.  A duplicate
event is skipped with no state change at all, and delivering a payload whose
single event carries a fresh truthy providerMessageId once persists exactly
one message and emits exactly one message_incoming broadcast, while every
redelivery of the identical request afterwards leaves the store exactly as it
was and emits no broadcast. -/
theorem metaWebhook_ingestion_idempotent
    (env : JsEnv) (cfg : AppConfig) (req : WebhookPostRequest) (st : Store)
    (pr : MetaProviderState) (inst : Option WhatsappInstanceConfig)
    (ev : IncomingMessageEvent) (pid : String)
    (hok : createMetaProvider cfg = .ok (pr, inst))
    (hsig : hasAppSecretFor cfg inst = false ∨
      verifyWebhookSignature env pr.appSecret req.sigHeader (effectiveRawBody env req) = true)
    (hparse : parseIncoming req.body = [ev])
    (hpid : ev.providerMessageId = some pid) (hne : pid ≠ "")
    (hfresh : getMessageByProviderMessageId st pid = none) :
    (∀ st2 bs, (getMessageByProviderMessageId st2 pid).isSome = true →
      processEvent env ev st2 bs = (st2, bs)) ∧
    ∃ m : StoredMessage,
      (handleMetaWebhookEvent env cfg req st).store.messages = st.messages ++ [m] ∧
      m.providerMessageId = some pid ∧
      (handleMetaWebhookEvent env cfg req st).broadcasts = [("message_incoming", m.id)] ∧
      ∀ n, iterateWebhook env cfg req (n + 1) st =
        ((handleMetaWebhookEvent env cfg req st).store, [("message_incoming", m.id)]) := by
  have hskip : ∀ st2 bs, (getMessageByProviderMessageId st2 pid).isSome = true →
      processEvent env ev st2 bs = (st2, bs) := by
    intro st2 bs h
    exact processEvent_dup env ev st2 bs (by simp [isDupEvent, hpid, hne, h])
  refine ⟨hskip, ?_⟩
  have hnd : isDupEvent ev st = false := by simp [isDupEvent, hpid, hfresh]
  obtain ⟨m, hm1, hm2, hm3, hm4, hm5, hm6, hm7, hm8⟩ := processEvent_fresh env ev st [] hnd
  have hmp : m.providerMessageId = some pid := by rw [hm4, hpid]
  have hrun1 : handleMetaWebhookEvent env cfg req st =
      { status := 200, body := "ok", store := (processEvent env ev st []).1
        broadcasts := (processEvent env ev st []).2 } := by
    rw [handleMetaWebhookEvent_gate env cfg req st pr inst hok hsig]
    unfold handleParsedEvents
    simp only [hparse, List.foldl_cons, List.foldl_nil]
  have hlookup : (getMessageByProviderMessageId (handleMetaWebhookEvent env cfg req st).store pid).isSome = true := by
    rw [hrun1]
    unfold getMessageByProviderMessageId
    rw [hm1]
    rw [find?_append_none st.messages [m] _ hfresh]
    simp [List.find?, hmp]
  have hstay : handleMetaWebhookEvent env cfg req (handleMetaWebhookEvent env cfg req st).store =
      { status := 200, body := "ok"
        store := (handleMetaWebhookEvent env cfg req st).store, broadcasts := [] } := by
    rw [handleMetaWebhookEvent_gate env cfg req
      (handleMetaWebhookEvent env cfg req st).store pr inst hok hsig]
    refine handleParsedEvents_all_dup env req.body _ (by rw [hparse]; simp) ?_
    intro e he
    rw [hparse] at he
    simp only [List.mem_singleton] at he
    subst he
    simp [isDupEvent, hpid, hne, hlookup]
  have hiter : ∀ k, iterateWebhook env cfg req k (handleMetaWebhookEvent env cfg req st).store =
      ((handleMetaWebhookEvent env cfg req st).store, []) := by
    intro k
    induction k with
    | zero => rfl
    | succ n ih =>
      simp only [iterateWebhook]
      rw [hstay]
      simpa using ih
  refine ⟨m, by rw [hrun1]; exact hm1, hmp, by rw [hrun1]; simpa using hm3, ?_⟩
  intro n
  simp only [iterateWebhook]
  rw [hiter n]
  have hbr : (handleMetaWebhookEvent env cfg req st).broadcasts = [("message_incoming", m.id)] := by
    rw [hrun1]
    simpa using hm3
  simp [hbr]

/-- Witness for C1 at concrete inputs: the fixture one-message payload is
ingested once and every redelivery is absorbed. -/
theorem metaWebhook_ingestion_idempotent_witness :
    parseIncoming fixtureReq.body = [parseMessage fixtureMsgText] ∧
    (parseMessage fixtureMsgText).providerMessageId = some "wamid.A" ∧
    getMessageByProviderMessageId {} "wamid.A" = none ∧
    ∃ m : StoredMessage,
      (handleMetaWebhookEvent fixtureEnv fixtureCfgOpen fixtureReq {}).store.messages = [m] ∧
      m.providerMessageId = some "wamid.A" ∧
      ∀ n, iterateWebhook fixtureEnv fixtureCfgOpen fixtureReq (n + 1) {} =
        ((handleMetaWebhookEvent fixtureEnv fixtureCfgOpen fixtureReq {}).store,
          [("message_incoming", m.id)]) := by
  have h := metaWebhook_ingestion_idempotent fixtureEnv fixtureCfgOpen fixtureReq {}
    (mkMetaProvider fixtureCfgOpen.env (some "") (some "") (some "") (some "") (some "")) none
    (parseMessage fixtureMsgText) "wamid.A" rfl (Or.inl (by decide)) (by rfl) (by decide)
    (by decide) rfl
  obtain ⟨m, hm1, hm2, _, hm4⟩ := h.2
  exact ⟨rfl, by decide, rfl, m, by simpa using hm1, hm2, hm4⟩

/-! ## C6: the audit log -/

/-- The event loop appends exactly as many audit records as messages it
persists. -/
theorem foldl_processEvent_balance (env : JsEnv) (evs : List IncomingMessageEvent) :
    ∀ st bs, ∃ k,
      ((evs.foldl (fun acc ev => processEvent env ev acc.1 acc.2) (st, bs)).1.messages.length =
        st.messages.length + k) ∧
      ((evs.foldl (fun acc ev => processEvent env ev acc.1 acc.2) (st, bs)).1.webhookEvents.length =
        st.webhookEvents.length + k) := by
  induction evs with
  | nil => intro st bs; exact ⟨0, by simp, by simp⟩
  | cons e rest ih =>
    intro st bs
    rw [List.foldl_cons]
    dsimp only
    by_cases hd : isDupEvent e st = true
    · rw [processEvent_dup env e st bs hd]
      exact ih st bs
    · have hnd : isDupEvent e st = false := by
        simpa using hd
      obtain ⟨m, hm1, hm2, _, _, _, _, _, _⟩ := processEvent_fresh env e st bs hnd
      obtain ⟨k, hk1, hk2⟩ := ih (processEvent env e st bs).1 (processEvent env e st bs).2
      refine ⟨k + 1, ?_, ?_⟩
      · rw [hk1, hm1]
        simp [Nat.add_assoc, Nat.add_comm 1 k]
      · rw [hk2, hm2]
        simp [Nat.add_assoc, Nat.add_comm 1 k]

/-- A store with a message whose provider id matches the fixture payload, so
that every event of the fixture request is a duplicate. -/
def fixtureDupStore : Store :=
  { conversations := [ { id := 0, phone := some "15550001111", createdByUserId := none } ]
    messages := [ { id := 1, conversationId := 0, direction := "inbound", body := some "hello"
                    media := none, providerMessageId := some "wamid.A", status := "received"
                    replyToMessageId := none, sentByUserId := none } ]
    webhookEvents := []
    lastAtTouches := []
    nextId := 2 }

/-- Counterexample to C6: an inbound POST whose only event is a duplicate is
acknowledged 200 but appends no WebhookEvent audit record at all - the store
is left exactly as it was. -/
theorem metaWebhook_audit_all_duplicates_counterexample :
    parseIncoming fixtureReq.body ≠ [] ∧
    (handleMetaWebhookEvent fixtureEnv fixtureCfgOpen fixtureReq fixtureDupStore).status = 200 ∧
    (handleMetaWebhookEvent fixtureEnv fixtureCfgOpen fixtureReq fixtureDupStore).store =
      fixtureDupStore := by
  refine ⟨by decide, rfl, rfl⟩

/-- C6 as amended: the audit log receives an appended record on the provider
construction failure, invalid signature, and zero-events paths, and one
record per newly persisted message on the processing path; but a POST whose
parsed events are all duplicates appends no record and leaves the store
entirely unchanged. -/
theorem metaWebhook_audit_log_amended
    (env : JsEnv) (cfg : AppConfig) (req : WebhookPostRequest) (st : Store) :
    (∀ e, createMetaProvider cfg = .error e →
      (handleMetaWebhookEvent env cfg req st).store.webhookEvents =
        st.webhookEvents ++ [ { respStatus := 500, respBody := e, messageId := none } ]) ∧
    (∀ pr inst, createMetaProvider cfg = .ok (pr, inst) →
      hasAppSecretFor cfg inst = true →
      verifyWebhookSignature env pr.appSecret req.sigHeader (effectiveRawBody env req) = false →
      (handleMetaWebhookEvent env cfg req st).store.webhookEvents =
        st.webhookEvents ++ [ { respStatus := 401, respBody := "Invalid signature", messageId := none } ]) ∧
    (∀ pr inst, createMetaProvider cfg = .ok (pr, inst) →
      (hasAppSecretFor cfg inst = false ∨
        verifyWebhookSignature env pr.appSecret req.sigHeader (effectiveRawBody env req) = true) →
      parseIncoming req.body = [] →
      (handleMetaWebhookEvent env cfg req st).store.webhookEvents =
        st.webhookEvents ++ [ { respStatus := 200, respBody := "ok - no events", messageId := none } ]) ∧
    (∀ pr inst, createMetaProvider cfg = .ok (pr, inst) →
      (hasAppSecretFor cfg inst = false ∨
        verifyWebhookSignature env pr.appSecret req.sigHeader (effectiveRawBody env req) = true) →
      parseIncoming req.body ≠ [] →
      (∀ ev ∈ parseIncoming req.body, isDupEvent ev st = true) →
      (handleMetaWebhookEvent env cfg req st).store = st) ∧
    (∀ pr inst, createMetaProvider cfg = .ok (pr, inst) →
      (hasAppSecretFor cfg inst = false ∨
        verifyWebhookSignature env pr.appSecret req.sigHeader (effectiveRawBody env req) = true) →
      parseIncoming req.body ≠ [] →
      ∃ k, (handleMetaWebhookEvent env cfg req st).store.messages.length =
              st.messages.length + k ∧
           (handleMetaWebhookEvent env cfg req st).store.webhookEvents.length =
              st.webhookEvents.length + k) := by
  refine ⟨?_, ?_, ?_, ?_, ?_⟩
  · intro e herr
    unfold handleMetaWebhookEvent
    rw [herr]
    simp [logWebhookEvent]
  · intro pr inst hok hsec hver
    unfold handleMetaWebhookEvent
    rw [hok]
    simp [hsec, hver, logWebhookEvent]
  · intro pr inst hok hsig hparse
    rw [handleMetaWebhookEvent_gate env cfg req st pr inst hok hsig]
    simp [handleParsedEvents, hparse, logWebhookEvent]
  · intro pr inst hok hsig hne hdup
    rw [handleMetaWebhookEvent_gate env cfg req st pr inst hok hsig]
    rw [handleParsedEvents_all_dup env req.body st hne hdup]
  · intro pr inst hok hsig hne
    rw [handleMetaWebhookEvent_gate env cfg req st pr inst hok hsig]
    unfold handleParsedEvents
    cases hp : parseIncoming req.body with
    | nil => exact absurd hp hne
    | cons e rest =>
      obtain ⟨k, hk1, hk2⟩ := foldl_processEvent_balance env (e :: rest) st []
      exact ⟨k, by simpa using hk1, by simpa using hk2⟩

/-- Witness for the amended C6: the zero-events call appends exactly one
audit record. -/
theorem metaWebhook_audit_log_amended_witness :
    (handleMetaWebhookEvent fixtureEnv fixtureCfgOpen fixtureEmptyReq {}).store.webhookEvents =
      [ { respStatus := 200, respBody := "ok - no events", messageId := none } ] := by
  have h := (metaWebhook_audit_log_amended fixtureEnv fixtureCfgOpen fixtureEmptyReq {}).2.2.1
    (mkMetaProvider fixtureCfgOpen.env (some "") (some "") (some "") (some "") (some "")) none
    rfl (Or.inl (by decide)) rfl
  simpa using h

/-! ## C10: totality of parseIncoming -/

/-- C10: parseIncoming is total over its payload shapes: no entry field gives
the empty list, entries without changes and changes without messages
contribute nothing, and a message of unrecognized type still yields exactly
one event carrying the sender and provider id but neither body nor media;
processing such an event persists an empty inbound message. -/
theorem parseIncoming_totality :
    (∀ p : MetaPayload, p.entry = none → parseIncoming p = []) ∧
    (∀ e : MetaEntry, e.changes = none → parseEntry e = []) ∧
    (∀ c : MetaChange, c.value.bind (fun v => v.messages) = none → parseChange c = []) ∧
    (∀ msg : MetaMessage,
      msg.mtype ≠ some "text" → msg.mtype ≠ some "image" → msg.mtype ≠ some "document" →
      msg.mtype ≠ some "video" → msg.mtype ≠ some "audio" →
      (parseMessage msg).fromPhone = msg.msgFrom ∧
      (parseMessage msg).providerMessageId = msg.id ∧
      (parseMessage msg).body = none ∧
      (parseMessage msg).media = none ∧
      parseIncoming
        { entry := some [ { changes := some [ { value := some { messages := some [msg] } } ] } ] } =
        [parseMessage msg]) ∧
    (∀ (env : JsEnv) (ev : IncomingMessageEvent) (st : Store) (bs : List (String × Nat)),
      isDupEvent ev st = false → ev.body = none → ev.media = none →
      ∃ m : StoredMessage,
        (processEvent env ev st bs).1.messages = st.messages ++ [m] ∧
        m.body = none ∧ m.media = none ∧ m.direction = "inbound") := by
  refine ⟨?_, ?_, ?_, ?_, ?_⟩
  · intro p h
    unfold parseIncoming
    rw [h]
  · intro e h
    unfold parseEntry
    rw [h]
  · intro c h
    unfold parseChange
    rw [h]
  · intro msg h1 h2 h3 h4 h5
    refine ⟨?_, ?_, ?_, ?_, ?_⟩ <;>
      simp [parseMessage, parseIncoming, parseEntry, parseChange, h1, h2, h3, h4, h5]
  · intro env ev st bs hnd hbody hmedia
    obtain ⟨m, hm1, _, _, _, hm5, hm6, hm7, _⟩ := processEvent_fresh env ev st bs hnd
    refine ⟨m, hm1, ?_, ?_, hm5⟩
    · rw [hm6, hbody]
    · rw [hm7, hmedia]
      rfl

/-- A concrete message of unknown type. -/
def fixtureMsgUnknown : MetaMessage :=
  { msgFrom := some "15550001111", id := some "wamid.B", mtype := some "sticker" }

/-- A concrete payload around fixtureMsgUnknown. -/
def fixtureUnknownPayload : MetaPayload :=
  { entry := some [ { changes := some [ { value := some { messages := some [fixtureMsgUnknown] } } ] } ] }

/-- Witness for C10 at concrete inputs. -/
theorem parseIncoming_totality_witness :
    parseIncoming { entry := none } = [] ∧
    (parseMessage fixtureMsgUnknown).body = none ∧
    (parseMessage fixtureMsgUnknown).media = none ∧
    parseIncoming fixtureUnknownPayload = [parseMessage fixtureMsgUnknown] := by
  have h4 := parseIncoming_totality.2.2.2.1 fixtureMsgUnknown
    (by decide) (by decide) (by decide) (by decide) (by decide)
  exact ⟨parseIncoming_totality.1 { entry := none } rfl, h4.2.2.1, h4.2.2.2.1, h4.2.2.2.2⟩

/-! ## C8 and C9: the send endpoint -/

/-- Conversation resolution never touches the persisted messages. -/
theorem resolveSendConversation_messages (req : SendRequest) (st : Store)
    (conv : Conversation) (st1 : Store)
    (h : resolveSendConversation req st = .ok (conv, st1)) :
    st1.messages = st.messages := by
  unfold resolveSendConversation at h
  split at h
  · split at h
    · simp only [Except.ok.injEq, Prod.mk.injEq] at h
      rw [← h.2]
    · exact absurd h (by simp)
  · split at h
    · exact absurd h (by simp)
    · split at h
      · exact absurd h (by simp)
      · split at h
        · simp only [Except.ok.injEq, Prod.mk.injEq] at h
          rw [← h.2]
        · simp only [Except.ok.injEq, createConversation, Prod.mk.injEq] at h
          rw [← h.2]

/-- C8: when only the upstream dispatch fails, the send endpoint still
answers 200 with ok true, persists the outbound message with status failed,
returns that persisted message, and broadcasts it as message_outgoing. -/
theorem sendMessage_dispatch_failure_preserved
    (env : JsEnv) (cfg : AppConfig) (upstream : Except String (Option String))
    (req : SendRequest) (st : Store) (conv : Conversation) (st1 : Store)
    (rt : Option StoredMessage) (pr : MetaProviderState)
    (inst : Option WhatsappInstanceConfig) (e : String)
    (hv1 : (!req.conversationId.isSome && !(optTruthyStr req.toPhone)) = false)
    (hv2 : (!(optTruthyStr req.body) && !(optTruthyStr req.media_url)) = false)
    (hconv : resolveSendConversation req st = .ok (conv, st1))
    (hreply : checkReplyTarget st1 conv req.replyToMessageId = .ok rt)
    (hok : createMetaProvider cfg = .ok (pr, inst))
    (htok : pr.token ≠ "") (hpn : pr.phoneNumberId ≠ "")
    (hup : upstream = .error e) :
    (sendMessageHandler env cfg upstream req st).status = 200 ∧
    (sendMessageHandler env cfg upstream req st).ok = true ∧
    ∃ m : StoredMessage,
      (sendMessageHandler env cfg upstream req st).message = some m ∧
      m.status = "failed" ∧
      m.direction = "outbound" ∧
      m ∈ (sendMessageHandler env cfg upstream req st).store.messages ∧
      (sendMessageHandler env cfg upstream req st).broadcasts =
        [("message_outgoing", m.id)] := by
  have hcred : (pr.token = "" ∨ pr.phoneNumberId = "") = False := by
    simp [htok, hpn]
  have hrw : sendMessageHandler env cfg upstream req st =
      { status := 200, ok := true
        message := some (createMessage st1
          { conversationId := conv.id, direction := "outbound"
            body := if optTruthyStr req.body then req.body else none
            media := buildOutboundMedia env req, providerMessageId := none
            status := "failed", replyToMessageId := req.replyToMessageId
            sentByUserId := req.userId }).1
        errorMsg := none
        store := updateConversationLastAt (createMessage st1
          { conversationId := conv.id, direction := "outbound"
            body := if optTruthyStr req.body then req.body else none
            media := buildOutboundMedia env req, providerMessageId := none
            status := "failed", replyToMessageId := req.replyToMessageId
            sentByUserId := req.userId }).2 conv.id
        broadcasts := [("message_outgoing", (createMessage st1
          { conversationId := conv.id, direction := "outbound"
            body := if optTruthyStr req.body then req.body else none
            media := buildOutboundMedia env req, providerMessageId := none
            status := "failed", replyToMessageId := req.replyToMessageId
            sentByUserId := req.userId }).1.id)]
        dispatchCount := 1 } := by
    unfold sendMessageHandler
    rw [hv1, hv2, hconv]
    dsimp only
    rw [hreply]
    dsimp only
    rw [hok]
    dsimp only
    simp [hcred, hup]
  refine ⟨by rw [hrw], by rw [hrw], ?_⟩
  refine ⟨_, by rw [hrw], rfl, rfl, ?_, by rw [hrw]⟩
  rw [hrw]
  simp [createMessage, updateConversationLastAt]

/-- C9: a send request whose reply target does not exist, or belongs to a
different conversation than the resolved one, or is an outbound message, is
answered 400 with no message persisted, no broadcast, and no provider
dispatch. -/
theorem sendMessage_reply_integrity
    (env : JsEnv) (cfg : AppConfig) (upstream : Except String (Option String))
    (req : SendRequest) (st : Store) (conv : Conversation) (st1 : Store) (rid : Nat)
    (hv1 : (!req.conversationId.isSome && !(optTruthyStr req.toPhone)) = false)
    (hv2 : (!(optTruthyStr req.body) && !(optTruthyStr req.media_url)) = false)
    (hconv : resolveSendConversation req st = .ok (conv, st1))
    (hrid : req.replyToMessageId = some rid)
    (hbad : getMessageById st1 rid = none ∨
      ∃ t : StoredMessage, getMessageById st1 rid = some t ∧
        (t.conversationId ≠ conv.id ∨ t.direction = "outbound")) :
    (sendMessageHandler env cfg upstream req st).status = 400 ∧
    (sendMessageHandler env cfg upstream req st).store.messages = st.messages ∧
    (sendMessageHandler env cfg upstream req st).dispatchCount = 0 ∧
    (sendMessageHandler env cfg upstream req st).broadcasts = [] := by
  have hcheck : ∃ msg, checkReplyTarget st1 conv req.replyToMessageId = .error msg := by
    rw [hrid]
    unfold checkReplyTarget
    dsimp only
    rcases hbad with hnone | ⟨t, hsome, hviol⟩
    · rw [hnone]
      exact ⟨_, rfl⟩
    · rw [hsome]
      dsimp only
      by_cases hc : t.conversationId ≠ conv.id
      · rw [if_pos hc]
        exact ⟨_, rfl⟩
      · rw [if_neg hc]
        have hdir : t.direction ≠ "inbound" := by
          rcases hviol with hviol | hviol
          · exact absurd hviol hc
          · rw [hviol]
            decide
        rw [if_pos hdir]
        exact ⟨_, rfl⟩
  obtain ⟨msg, hmsg⟩ := hcheck
  have hrw : sendMessageHandler env cfg upstream req st = sendErr 400 msg st1 := by
    unfold sendMessageHandler
    rw [hv1, hv2, hconv]
    dsimp only
    rw [hmsg]
    simp
  rw [hrw]
  exact ⟨rfl, resolveSendConversation_messages req st conv st1 hconv, rfl, rfl⟩

/-- A store with one conversation holding one inbound and one outbound
message, for the send witnesses. -/
def fixtureSendStore : Store :=
  { conversations := [ { id := 0, phone := some "15550002222", createdByUserId := none } ]
    messages := [ { id := 1, conversationId := 0, direction := "inbound", body := some "q"
                    media := none, providerMessageId := some "wamid.in", status := "received"
                    replyToMessageId := none, sentByUserId := none },
                  { id := 2, conversationId := 0, direction := "outbound", body := some "a"
                    media := none, providerMessageId := none, status := "sent"
                    replyToMessageId := none, sentByUserId := none } ]
    webhookEvents := []
    lastAtTouches := []
    nextId := 3 }

/-- A send request addressed by phone with a body. -/
def fixtureSendReq : SendRequest :=
  { toPhone := some "15550002222", body := some "hi" }

/-- Witness for C8 at concrete inputs: a failed dispatch still persists and
returns a failed outbound message. -/
theorem sendMessage_dispatch_failure_preserved_witness :
    (sendMessageHandler fixtureEnv fixtureCfgCred (.error "boom") fixtureSendReq
      fixtureSendStore).status = 200 ∧
    ∃ m : StoredMessage,
      (sendMessageHandler fixtureEnv fixtureCfgCred (.error "boom") fixtureSendReq
        fixtureSendStore).message = some m ∧
      m.status = "failed" ∧
      m ∈ (sendMessageHandler fixtureEnv fixtureCfgCred (.error "boom") fixtureSendReq
        fixtureSendStore).store.messages := by
  have h := sendMessage_dispatch_failure_preserved fixtureEnv fixtureCfgCred (.error "boom")
    fixtureSendReq fixtureSendStore
    { id := 0, phone := some "15550002222", createdByUserId := none } fixtureSendStore none
    (mkMetaProvider fixtureCfgCred.env (some "T") (some "P") (some "") (some "") (some ""))
    none "boom" (by decide) (by decide) rfl rfl rfl (by decide) (by decide) rfl
  obtain ⟨m, hm1, hm2, _, hm4, _⟩ := h.2.2
  exact ⟨h.1, m, hm1, hm2, hm4⟩

/-- Witness for C9 at concrete inputs: replying to an outbound message is
rejected with 400 before any dispatch. -/
theorem sendMessage_reply_integrity_witness :
    (sendMessageHandler fixtureEnv fixtureCfgCred (.ok none)
      { fixtureSendReq with replyToMessageId := some 2 } fixtureSendStore).status = 400 ∧
    (sendMessageHandler fixtureEnv fixtureCfgCred (.ok none)
      { fixtureSendReq with replyToMessageId := some 2 } fixtureSendStore).store.messages =
      fixtureSendStore.messages ∧
    (sendMessageHandler fixtureEnv fixtureCfgCred (.ok none)
      { fixtureSendReq with replyToMessageId := some 2 } fixtureSendStore).dispatchCount = 0 := by
  have h := sendMessage_reply_integrity fixtureEnv fixtureCfgCred (.ok none)
    { fixtureSendReq with replyToMessageId := some 2 } fixtureSendStore
    { id := 0, phone := some "15550002222", createdByUserId := none } fixtureSendStore 2
    (by decide) (by decide) rfl rfl
    (Or.inr ⟨{ id := 2, conversationId := 0, direction := "outbound", body := some "a"
               media := none, providerMessageId := none, status := "sent"
               replyToMessageId := none, sentByUserId := none }, rfl, Or.inr rfl⟩)
  exact ⟨h.1, h.2.1, h.2.2.1⟩

end ChatSphere
